import Mathlib

/-!
Shallow embedding of the praxis-go-sdk shared scripts:
  - src/shared/analyzer.py          (file-stat tool)
  - src/shared/twitter_scraper.py          (main variant)
  - src/shared/twitter_scraper_simple.py   (simple variant)
  - src/shared/twitter_scraper_debug.py    (debug variant)

Python dict values occurring in the scripts are modelled by `PyVal`;
dicts by association lists; Python truthiness by `truthy`; `a or b` by
`pyOr`; `d.get(k)` / `d.get(k, default)` by `pyGet` / `pyGetD`.
-/

set_option autoImplicit false

/-- A Python value as it occurs in the records handled by the scripts:
strings, integers, booleans and None. -/
inductive PyVal where
  | str (s : String)
  | int (n : Int)
  | bool (b : Bool)
  | none
  deriving DecidableEq

/-- A Python dict (a raw record), as an association list; first binding wins. -/
abbrev PyRec := List (String × PyVal)

/-- Python truthiness of a `PyVal`: empty string, 0, False and None are falsy. -/
def truthy : PyVal → Bool
  | .str s => s != ""
  | .int n => n != 0
  | .bool b => b
  | .none => false

/-- `item.get(k)`: the value bound to `k`, or None when the key is absent. -/
def pyGet (item : PyRec) (k : String) : PyVal :=
  match item.lookup k with
  | some v => v
  | Option.none => PyVal.none

/-- `item.get(k, d)`: the value bound to `k`, or the default `d` when absent. -/
def pyGetD (item : PyRec) (k : String) (d : PyVal) : PyVal :=
  match item.lookup k with
  | some v => v
  | Option.none => d

/-- Python `a or b`: `a` if truthy, else `b`. -/
def pyOr (a b : PyVal) : PyVal :=
  if truthy a then a else b

/-- Python `k in item`. -/
def pyHasKey (item : PyRec) (k : String) : Bool :=
  (item.lookup k).isSome

/-- Whitespace characters recognised by Python `str.split()` / `str.strip()`
(the ASCII ones, which are the only ones the scripts can meet in practice,
plus the C1 control separators Python also counts). -/
def pyIsSpace (c : Char) : Bool :=
  c == ' ' || c == '\t' || c == '\n' || c == '\r' || c == '\x0b' || c == '\x0c'
    || c == '\x1c' || c == '\x1d' || c == '\x1e' || c == '\x1f' || c == '\x85'

/-- Line-boundary characters recognised by Python `str.splitlines`. -/
def pyIsLineBoundary (c : Char) : Bool :=
  c == '\n' || c == '\r' || c == '\x0b' || c == '\x0c'
    || c == '\x1c' || c == '\x1d' || c == '\x1e' || c == '\x85'
    || c == '\u2028' || c == '\u2029'

/-- Helper for `content.split()`: splits on runs of whitespace, discarding
empty tokens; `acc` is the (reversed) token being accumulated. -/
def pySplitAux : List Char → List Char → List (List Char)
  | [], acc => if acc.isEmpty then [] else [acc.reverse]
  | c :: rest, acc =>
    if pyIsSpace c then
      if acc.isEmpty then pySplitAux rest [] else acc.reverse :: pySplitAux rest []
    else
      pySplitAux rest (c :: acc)

/-- Python `content.split()` (no separator argument): the list of maximal
whitespace-separated tokens. -/
def pySplit (s : List Char) : List (List Char) :=
  pySplitAux s []

/-- Helper for `content.splitlines()`: `"\r\n"` counts as a single boundary;
`acc` is the (reversed) current line. -/
def pySplitlinesAux : List Char → List Char → List (List Char)
  | [], acc => if acc.isEmpty then [] else [acc.reverse]
  | c :: rest, acc =>
    if c == '\r' then
      acc.reverse ::
        pySplitlinesAux (if rest.head? == some '\n' then rest.tail else rest) []
    else if pyIsLineBoundary c then acc.reverse :: pySplitlinesAux rest []
    else pySplitlinesAux rest (c :: acc)
termination_by s _ => s.length
decreasing_by
  all_goals simp only [List.length_cons]
  · split
    · have := List.length_tail rest
      omega
    · omega
  · omega
  · omega

/-- Python `content.splitlines()`. -/
def pySplitlines (s : List Char) : List (List Char) :=
  pySplitlinesAux s []

/-- analyzer.py line 40: `"word_count": len(content.split())`. -/
def word_count (content : List Char) : Nat :=
  (pySplit content).length

/-- analyzer.py line 41: `"line_count": len(content.splitlines())`. -/
def line_count (content : List Char) : Nat :=
  (pySplitlines content).length

/-- The number of newline characters in the content (the spec's
"trivial newline counting"). -/
def countNewlines (content : List Char) : Nat :=
  (content.filter (fun c => c == '\n')).length

/-- The number of maximal whitespace-separated tokens, counted directly:
a token starts at each non-space character not preceded by a non-space
character. `inTok` records whether the previous character was non-space. -/
def countTokens : List Char → Bool → Nat
  | [], _ => 0
  | c :: rest, inTok =>
    if pyIsSpace c then countTokens rest false
    else (if inTok then 0 else 1) + countTokens rest true

/-- Character-list test that `p` starts the list `s` (models Python
`s.startswith(p)` after `String.data`). -/
def hasStart : List Char → List Char → Bool
  | [], _ => true
  | _ :: _, [] => false
  | a :: ps, b :: ss => a == b && hasStart ps ss

/-- Python `s.startswith(p)`. -/
def strStartsWith (s p : String) : Bool :=
  hasStart p.data s.data

/-- Python `s.strip()` (no argument): removes leading and trailing whitespace. -/
def pyStrip (s : String) : String :=
  ⟨((s.data.dropWhile pyIsSpace).reverse.dropWhile pyIsSpace).reverse⟩

/-- Python `username.lstrip('@')`: removes every leading `'@'`. -/
def lstripAt (s : String) : String :=
  ⟨s.data.dropWhile (fun c => c == '@')⟩

/-- Python `s.lower()` restricted to ASCII case folding. -/
def pyLower (s : String) : String :=
  ⟨s.data.map Char.toLower⟩

/-! ## The poll loop

twitter_scraper_simple.py lines 73-84 and twitter_scraper_debug.py lines
83-101 run

    max_wait = ...; waited = 0
    while waited < max_wait:
        <poll status>
        if status in <terminal list>: break
        time.sleep(5); waited += 5

`waited` takes the values 0, 5, ... so with `interval = 5` the body runs at
most `max_wait / 5` times: the loop is embedded with that iteration budget
as fuel.  `statuses k` is the status returned by the k-th poll.  The result
is the value of the `status` variable after the loop (`none` would mean the
body never ran, impossible with positive fuel) together with the number of
polls issued. -/

/-- twitter_scraper_simple.py line 80:
`status in ['SUCCEEDED', 'FAILED', 'ABORTED']`. -/
def terminalSimple (s : String) : Bool :=
  ["SUCCEEDED", "FAILED", "ABORTED"].contains s

/-- twitter_scraper_debug.py line 97:
`status in ("SUCCEEDED", "FAILED", "ABORTED", "TIMED-OUT")`. -/
def terminalDebug (s : String) : Bool :=
  ["SUCCEEDED", "FAILED", "ABORTED", "TIMED-OUT"].contains s

/-- The poll loop: `fuel` remaining iterations, polling `statuses k`,
`statuses (k+1)`, ...; returns the last status polled (none when no poll
happened) and the number of polls issued. -/
def pollLoop (isTerm : String → Bool) (statuses : Nat → String) :
    Nat → Nat → Option String × Nat
  | 0, _ => (Option.none, 0)
  | fuel + 1, k =>
    let s := statuses k
    if isTerm s then (some s, 1)
    else
      let r := pollLoop isTerm statuses fuel (k + 1)
      (some (r.1.getD s), r.2 + 1)

/-- Poll interval (seconds) common to both polling variants. -/
def pollInterval : Nat := 5

/-- twitter_scraper_simple.py line 73: `max_wait = 60`. -/
def maxWaitSimple : Nat := 60

/-- twitter_scraper_debug.py line 83: `max_wait = 120`. -/
def maxWaitDebug : Nat := 120

/-- The whole poll phase of twitter_scraper_simple.py (lines 73-84). -/
def runPollSimple (statuses : Nat → String) : Option String × Nat :=
  pollLoop terminalSimple statuses (maxWaitSimple / pollInterval) 0

/-- The whole poll phase of twitter_scraper_debug.py (lines 83-101). -/
def runPollDebug (statuses : Nat → String) : Option String × Nat :=
  pollLoop terminalDebug statuses (maxWaitDebug / pollInterval) 0

/-- twitter_scraper_simple.py lines 86-87: after the loop,
`if status_data['data']['status'] != 'SUCCEEDED': raise Exception(...)`.
An unset `status_data` (loop body never ran) would raise a `NameError`,
also an error. The raised exception is caught at top level (lines 169-173)
and rendered as an error envelope. -/
def afterPollSimple (finalStatus : Option String) : Except String Unit :=
  match finalStatus with
  | Option.none => Except.error "name 'status_data' is not defined"
  | some s =>
    if s != "SUCCEEDED" then Except.error ("Actor run failed with status: " ++ s)
    else Except.ok ()

/-- twitter_scraper_debug.py lines 103-104: after the loop,
`if status != "SUCCEEDED": raise RuntimeError(...)`; caught in `main`
(lines 197-199) and rendered as an error envelope. -/
def afterPollDebug (finalStatus : Option String) : Except String Unit :=
  match finalStatus with
  | Option.none => Except.error "name 'status' is not defined"
  | some s =>
    if s != "SUCCEEDED" then Except.error ("Actor run finished with status: " ++ s)
    else Except.ok ()

/-! ## The retrieve step -/

/-- The JSON envelope each script finally prints. -/
inductive Envelope where
  | success (message : String)
  | error (message : String)
  | processing (message : String)
  deriving DecidableEq

/-- twitter_scraper.py lines 92-93:
`dataset_id = run.get("defaultDatasetId")` and
`items = list(client.dataset(dataset_id).iterate_items()) if dataset_id else []`.
`fetch` stands for the external dataset iteration. -/
def itemsForRun (run : PyRec) (fetch : PyVal → List PyRec) : List PyRec :=
  let dataset_id := pyGet run "defaultDatasetId"
  if truthy dataset_id then fetch dataset_id else []

/-- twitter_scraper.py lines 95-100: `if not items:` print an error envelope
and return, else continue with the items. -/
def emptyItemsCheck (username : String) (items : List PyRec) :
    Except Envelope (List PyRec) :=
  if items.isEmpty then
    Except.error (Envelope.error
      ("No data found for username @" ++ username ++
        ". Check if the username exists and is public."))
  else Except.ok items

/-- twitter_scraper_debug.py lines 103-108 condensed: the end of `run_actor`
once the poll loop has delivered `status`; on SUCCEEDED it requires a truthy
`defaultDatasetId` in the status payload `st` before fetching. -/
def debugRetrieve (status : String) (st : PyRec) (fetch : PyVal → List PyRec) :
    Except String (List PyRec) :=
  if status != "SUCCEEDED" then
    Except.error ("Actor run finished with status: " ++ status)
  else
    let dataset_id := pyGet st "defaultDatasetId"
    if ¬ truthy dataset_id then Except.error "No dataset id returned"
    else Except.ok (fetch dataset_id)

/-! ## Normalization -/

/-- A normalized content item (tweet) as written into the report. -/
structure Tweet where
  id : PyVal
  text : PyVal
  created_at : PyVal
  retweet_count : PyVal
  like_count : PyVal
  reply_count : PyVal
  url : PyVal
  deriving DecidableEq

/-- A normalized profile as written into the report. -/
structure Profile where
  username : PyVal
  display_name : PyVal
  description : PyVal
  followers_count : PyVal
  following_count : PyVal
  tweets_count : PyVal
  verified : PyVal
  deriving DecidableEq

/-- twitter_scraper.py line 121:
`text_val = item.get('text') or item.get('full_text') or item.get('content', '')`. -/
def text_val (item : PyRec) : PyVal :=
  pyOr (pyGet item "text")
    (pyOr (pyGet item "full_text") (pyGetD item "content" (PyVal.str "")))

/-- twitter_scraper.py line 122:
`created_val = item.get('createdAt') or item.get('created_at') or item.get('date')`. -/
def created_val (item : PyRec) : PyVal :=
  pyOr (pyGet item "createdAt")
    (pyOr (pyGet item "created_at") (pyGet item "date"))

/-- twitter_scraper.py line 123:
`retweets_val = item.get('retweetCount', item.get('retweet_count', 0))`. -/
def retweets_val (item : PyRec) : PyVal :=
  pyGetD item "retweetCount" (pyGetD item "retweet_count" (PyVal.int 0))

/-- twitter_scraper.py line 124:
`likes_val = item.get('likeCount', item.get('favorite_count', item.get('like_count', 0)))`. -/
def likes_val (item : PyRec) : PyVal :=
  pyGetD item "likeCount"
    (pyGetD item "favorite_count" (pyGetD item "like_count" (PyVal.int 0)))

/-- twitter_scraper.py line 125:
`replies_val = item.get('replyCount', item.get('reply_count', 0))`. -/
def replies_val (item : PyRec) : PyVal :=
  pyGetD item "replyCount" (pyGetD item "reply_count" (PyVal.int 0))

/-- twitter_scraper.py line 126:
`url_val = item.get('url') or item.get('tweetUrl') or ''`. -/
def url_val (item : PyRec) : PyVal :=
  pyOr (pyGet item "url") (pyOr (pyGet item "tweetUrl") (PyVal.str ""))

/-- twitter_scraper.py line 127: `tid = item.get('id') or item.get('id_str')`. -/
def tid (item : PyRec) : PyVal :=
  pyOr (pyGet item "id") (pyGet item "id_str")

/-- twitter_scraper.py line 108 (same test in the other variants):
`item.get('type') == 'profile' or 'followersCount' in item`. -/
def isProfileItem (item : PyRec) : Bool :=
  pyGet item "type" == PyVal.str "profile" || pyHasKey item "followersCount"

/-- twitter_scraper.py lines 109-117: the profile record built from a
profile-like item (`username` is the cleaned username used as default). -/
def mkProfile (username : String) (item : PyRec) : Profile where
  username := pyGetD item "username" (PyVal.str username)
  display_name := pyGetD item "name" (PyVal.str "")
  description := pyGetD item "description" (PyVal.str "")
  followers_count := pyGetD item "followersCount" (PyVal.int 0)
  following_count := pyGetD item "followingCount" (PyVal.int 0)
  tweets_count := pyGetD item "tweetsCount" (PyVal.int 0)
  verified := pyGetD item "verified" (PyVal.bool false)

/-- twitter_scraper.py lines 130-138: the tweet dict appended for a
content-like item. -/
def mkTweetMain (item : PyRec) : Tweet where
  id := tid item
  text := text_val item
  created_at := created_val item
  retweet_count := retweets_val item
  like_count := likes_val item
  reply_count := replies_val item
  url := url_val item

/-- One iteration of the twitter_scraper.py loop (lines 106-138):
profile-like items set `profile_data` (last one wins), content-like items
with truthy text or url are appended, everything else is skipped. -/
def normStepMain (username : String) (acc : List Tweet × Option Profile)
    (item : PyRec) : List Tweet × Option Profile :=
  if isProfileItem item then (acc.1, some (mkProfile username item))
  else if truthy (text_val item) || truthy (url_val item) then
    (acc.1 ++ [mkTweetMain item], acc.2)
  else acc

/-- The whole normalization loop of twitter_scraper.py (lines 102-138). -/
def normalizeMain (username : String) (items : List PyRec) :
    List Tweet × Option Profile :=
  items.foldl (normStepMain username) ([], Option.none)

/-- twitter_scraper_simple.py lines 108-116: the tweet dict built when
`item.get('type') == 'tweet'`. -/
def mkTweetSimple (item : PyRec) : Tweet where
  id := pyGet item "id"
  text := pyGetD item "text" (PyVal.str "")
  created_at := pyGet item "createdAt"
  retweet_count := pyGetD item "retweetCount" (PyVal.int 0)
  like_count := pyGetD item "likeCount" (PyVal.int 0)
  reply_count := pyGetD item "replyCount" (PyVal.int 0)
  url := pyGetD item "url" (PyVal.str "")

/-- One iteration of the twitter_scraper_simple.py loop (lines 106-126):
`if item.get('type') == 'tweet'` append, `elif` profile-like set profile,
else skip. The debug variant's loop (lines 150-170) has the same shape. -/
def normStepSimple (username : String) (acc : List Tweet × Option Profile)
    (item : PyRec) : List Tweet × Option Profile :=
  if pyGet item "type" == PyVal.str "tweet" then
    (acc.1 ++ [mkTweetSimple item], acc.2)
  else if isProfileItem item then (acc.1, some (mkProfile username item))
  else acc

/-- The whole normalization loop of twitter_scraper_simple.py
(lines 102-126), also used by twitter_scraper_debug.py (lines 148-170). -/
def normalizeSimple (username : String) (items : List PyRec) :
    List Tweet × Option Profile :=
  items.foldl (normStepSimple username) ([], Option.none)

/-! ## The report -/

/-- The `metadata` object of a report (twitter_scraper.py lines 145-150). -/
structure Metadata where
  scraped_at : String
  username : String
  tweets_requested : Int
  tweets_found : Nat
  deriving DecidableEq

/-- The report written to the JSON file (twitter_scraper.py lines 144-153;
same shape in the other variants). -/
structure Report where
  metadata : Metadata
  profile : Option Profile
  tweets : List Tweet
  deriving DecidableEq

/-- twitter_scraper.py lines 102-153: normalize the items and build the
`full_data` report; `scrapedAt` stands for `datetime.now().isoformat()`. -/
def buildReportMain (scrapedAt username : String) (tweetsRequested : Int)
    (items : List PyRec) : Report :=
  let r := normalizeMain username items
  { metadata :=
      { scraped_at := scrapedAt
        username := username
        tweets_requested := tweetsRequested
        tweets_found := r.1.length }
    profile := r.2
    tweets := r.1 }

/-- twitter_scraper_simple.py lines 102-141: the same report built over the
simple variant's normalization. -/
def buildReportSimple (scrapedAt username : String) (tweetsRequested : Int)
    (items : List PyRec) : Report :=
  let r := normalizeSimple username items
  { metadata :=
      { scraped_at := scrapedAt
        username := username
        tweets_requested := tweetsRequested
        tweets_found := r.1.length }
    profile := r.2
    tweets := r.1 }

/-- twitter_scraper_debug.py lines 148-188: the debug variant normalizes
like the simple variant (keyed on `args.username`, the raw argument) and
writes the same metadata/profile/tweets shape. -/
def buildReportDebug (scrapedAt argUsername : String) (tweetsRequested : Int)
    (items : List PyRec) : Report :=
  let r := normalizeSimple argUsername items
  { metadata :=
      { scraped_at := scrapedAt
        username := argUsername
        tweets_requested := tweetsRequested
        tweets_found := r.1.length }
    profile := r.2
    tweets := r.1 }

/-! ## Job request payloads -/

/-- The environment variables twitter_scraper.py consults
(`none` = variable unset). -/
structure MainEnv where
  username : Option String
  usernameUC : Option String
  twitterUsername : Option String
  apifyApiToken : Option String
  apifyActorId : Option String
  tweetsCountEnv : Option String
  query : Option String
  tweetLanguage : Option String
  includeRetweets : Option String
  includeReplies : Option String
  apifyProxyGroups : Option String
  deriving DecidableEq

/-- Truthiness of an optional environment string (None and "" are falsy). -/
def optStrTruthy : Option String → Bool
  | some s => s != ""
  | Option.none => false

/-- Python `a or b` on optional strings. -/
def pyOrStr (a b : Option String) : Option String :=
  if optStrTruthy a then a else b

/-- Python `a or d` where `d` is a plain (string) default. -/
def pyOrStrD (a : Option String) (d : String) : String :=
  match a with
  | some s => if s != "" then s else d
  | Option.none => d

/-- twitter_scraper.py lines 63-65: `value.lower() in ('1', 'true', 'yes')`. -/
def envFlagToBool (s : String) : Bool :=
  ["1", "true", "yes"].contains (pyLower s)

/-- twitter_scraper.py lines 69-73 (and twitter_scraper_debug.py line 139):
`[g.strip() for g in proxy_groups.split(',') if g.strip()]`. -/
def parseProxyGroups (s : String) : List String :=
  ((s.splitOn ",").map pyStrip).filter (fun g => g != "")

/-- The request payload sent to the external service: either the
apidojo search-terms shape or the web.harvester handles shape. -/
inductive RunInput where
  | search (searchMode : String) (searchTerms : List String) (maxItems : Int)
      (tweetLanguage : Option String) (includeRetweets : Option Bool)
      (includeReplies : Option Bool)
  | handles (handles : List String) (userQueries : List String)
      (tweetsDesired : Int) (profilesDesired : Int)
      (useApifyProxy : Bool) (apifyProxyGroups : Option (List String))
  deriving DecidableEq

/-- Which of the two payload shapes a `RunInput` is. -/
def RunInput.isSearch : RunInput → Bool
  | .search .. => true
  | .handles .. => false

/-- twitter_scraper.py lines 46-81: select the actor by
`os.environ.get('APIFY_ACTOR_ID', '').strip()` and build `run_input`;
`username` is the already cleaned username, `tweets_desired` the resolved
count. -/
def buildRunInputMain (env : MainEnv) (username : String)
    (tweets_desired : Int) : RunInput :=
  let actor_id := pyStrip (env.apifyActorId.getD "")
  if strStartsWith actor_id "apidojo~tweet-scraper"
      || strStartsWith actor_id "apidojo/tweet-scraper" || actor_id == "" then
    let query := pyOrStrD env.query ("from:" ++ username)
    RunInput.search "live" [query] tweets_desired
      (if optStrTruthy env.tweetLanguage then env.tweetLanguage else Option.none)
      (match env.includeRetweets with
       | some s => if s != "" then some (envFlagToBool s) else Option.none
       | Option.none => Option.none)
      (match env.includeReplies with
       | some s => if s != "" then some (envFlagToBool s) else Option.none
       | Option.none => Option.none)
  else
    let groups :=
      match env.apifyProxyGroups with
      | some s =>
        if s != "" then
          (if parseProxyGroups s ≠ [] then some (parseProxyGroups s) else Option.none)
        else Option.none
      | Option.none => Option.none
    RunInput.handles [username] [] tweets_desired 1 true groups

/-- twitter_scraper.py lines 43-81: clean the username (`lstrip('@')`,
line 43) and build the payload. -/
def mainRunInput (env : MainEnv) (rawUsername : String)
    (tweets_desired : Int) : RunInput :=
  buildRunInputMain env (lstripAt rawUsername) tweets_desired

/-- twitter_scraper_simple.py lines 37-50: clean the username and build the
fixed web.harvester payload with the RESIDENTIAL proxy group. -/
def simpleRunInput (rawUsername : String) (tweets_count : Int) : RunInput :=
  RunInput.handles [lstripAt rawUsername] [] tweets_count 1 true
    (some ["RESIDENTIAL"])

/-- twitter_scraper_debug.py lines 30-56: `run_actor` cleans the username
(line 31) and selects the payload by
`actor_id.startswith("apidojo~tweet-scraper")` only. -/
def debugRunInput (actor_id rawUsername : String) (tweets_count : Int)
    (proxy_groups : List String) : RunInput :=
  let username := lstripAt rawUsername
  if strStartsWith actor_id "apidojo~tweet-scraper" then
    RunInput.search "live" ["from:" ++ username] tweets_count
      Option.none Option.none Option.none
  else
    RunInput.handles [username] [] tweets_count 1 true
      (if proxy_groups ≠ [] then some proxy_groups else Option.none)

/-! ## Report filenames -/

/-- twitter_scraper.py line 159: `f"twitter_{username}_{timestamp}.json"`
where `username` was cleaned on line 43. -/
def mainJsonFilename (rawUsername ts : String) : String :=
  "twitter_" ++ lstripAt rawUsername ++ "_" ++ ts ++ ".json"

/-- twitter_scraper_simple.py line 147: same filename over the username
cleaned on line 38. -/
def simpleJsonFilename (rawUsername ts : String) : String :=
  "twitter_" ++ lstripAt rawUsername ++ "_" ++ ts ++ ".json"

/-- twitter_scraper_debug.py line 175:
`f"twitter_{args.username}_{ts}.json"` — the raw argument, not cleaned. -/
def debugJsonFilename (argUsername ts : String) : String :=
  "twitter_" ++ argUsername ++ "_" ++ ts ++ ".json"

/-! ## twitter_scraper.py: early phase (lines 21-36) -/

/-- twitter_scraper.py line 21: `args.username or os.environ.get('username')
or os.environ.get('USERNAME') or os.environ.get('TWITTER_USERNAME')`. -/
def resolveUsername (argUsername : Option String) (env : MainEnv) :
    Option String :=
  pyOrStr argUsername
    (pyOrStr env.username (pyOrStr env.usernameUC env.twitterUsername))

/-- twitter_scraper.py lines 21-36: the run up to (and including) the
credential check. `Except.error e` means the script prints envelope `e` and
returns; `Except.ok ()` means it proceeds toward submission. Line 30 binds
`apify_token = ""` (a string literal — the environment is not consulted),
so line 31's `if not apify_token:` always fires. -/
def mainEarly (argUsername : Option String) (env : MainEnv) :
    Except Envelope Unit :=
  let username := resolveUsername argUsername env
  if ¬ optStrTruthy username then
    Except.error (Envelope.error
      ("No username provided. Use --username parameter or set env var " ++
        "'username'/'USERNAME'/'TWITTER_USERNAME'."))
  else
    let apify_token := ""
    if apify_token == "" then
      Except.error (Envelope.error "APIFY_API_TOKEN environment variable not set")
    else Except.ok ()

/-! ## Spec-side definitions

These follow the spec's words, to be compared with the definitions
translated from the source. -/

/-- Spec-side alias resolution: "the first present alias wins" — the value
of the first key present in the record, else the default. -/
def firstPresent (item : PyRec) : List String → PyVal → PyVal
  | [], d => d
  | k :: ks, d =>
    match item.lookup k with
    | some v => v
    | Option.none => firstPresent item ks d

/-- Alias resolution as the source actually performs it for the
`or`-chained fields: the value of the first key bound to a truthy value;
when no alias is truthy, the fallback expression `last`. -/
def firstTruthyOr (item : PyRec) : List String → PyVal → PyVal
  | [], last => last
  | k :: ks, last =>
    let v := pyGet item k
    if truthy v then v else firstTruthyOr item ks last

/-- Spec-side condition of claim C7 for selecting the search-terms payload:
the selector starts with `apidojo~tweet-scraper` or `apidojo/tweet-scraper`
or is empty. -/
def c7ClaimCond (actor_id : String) : Bool :=
  strStartsWith actor_id "apidojo~tweet-scraper"
    || strStartsWith actor_id "apidojo/tweet-scraper" || actor_id == ""

/-- The content only uses `'\n'` among Python's line-boundary characters. -/
def onlyNlBoundaries (s : List Char) : Bool :=
  s.all (fun c => !(pyIsLineBoundary c) || c == '\n')

/-- 1 when a nonempty content does not end in a newline (its last line has
no terminator), else 0. -/
def tailLineExtra (s : List Char) : Nat :=
  match s.getLast? with
  | some c => if c == '\n' then 0 else 1
  | Option.none => 0

/-- The result set of the C8 scenario: five content records and one
profile record. -/
def c8ScenarioItems : List PyRec :=
  [[("type", PyVal.str "tweet"), ("id", PyVal.int 1), ("text", PyVal.str "first")],
   [("type", PyVal.str "tweet"), ("id", PyVal.int 2), ("text", PyVal.str "second")],
   [("type", PyVal.str "tweet"), ("id", PyVal.int 3), ("text", PyVal.str "third")],
   [("type", PyVal.str "tweet"), ("id", PyVal.int 4), ("text", PyVal.str "fourth")],
   [("type", PyVal.str "tweet"), ("id", PyVal.int 5), ("text", PyVal.str "fifth")],
   [("type", PyVal.str "profile"), ("followersCount", PyVal.int 120),
    ("username", PyVal.str "user")]]

/-- A sample environment in which every variable, the API token included,
is set. -/
def c9SampleEnv : MainEnv :=
  ⟨some "envuser", some "ENVUSER", some "twuser", some "apify_api_secret123",
    some "apidojo~tweet-scraper", some "10", some "from:envuser", some "en",
    some "true", some "false", some "RESIDENTIAL"⟩

/-! ## Helper lemmas -/

/-- Unfolding equation for `pollLoop` with positive fuel. -/
theorem pollLoop_succ (isTerm : String → Bool) (statuses : Nat → String)
    (fuel k : Nat) :
    pollLoop isTerm statuses (fuel + 1) k =
      if isTerm (statuses k) = true then (some (statuses k), 1)
      else
        (some ((pollLoop isTerm statuses fuel (k + 1)).1.getD (statuses k)),
          (pollLoop isTerm statuses fuel (k + 1)).2 + 1) := by
  rfl

theorem pollLoop_snd_le (isTerm : String → Bool) (statuses : Nat → String) :
    ∀ fuel k, (pollLoop isTerm statuses fuel k).2 ≤ fuel := by
  intro fuel
  induction fuel with
  | zero => intro k; simp [pollLoop]
  | succ n ih =>
    intro k
    rw [pollLoop_succ]
    by_cases h : isTerm (statuses k) = true
    · rw [if_pos h]; simp
    · rw [if_neg h]
      have := ih (k + 1)
      simp only []
      omega

theorem pollLoop_all_nonterminal (isTerm : String → Bool)
    (statuses : Nat → String) (h : ∀ j, isTerm (statuses j) = false) :
    ∀ n k, pollLoop isTerm statuses (n + 1) k = (some (statuses (k + n)), n + 1) := by
  intro n
  induction n with
  | zero =>
    intro k
    rw [pollLoop_succ, if_neg (by simp [h k])]
    simp [pollLoop]
  | succ m ih =>
    intro k
    rw [pollLoop_succ, if_neg (by simp [h k]), ih (k + 1)]
    have harg : k + 1 + m = k + (m + 1) := by omega
    simp [harg]

theorem pollLoop_first_terminal (isTerm : String → Bool)
    (statuses : Nat → String) :
    ∀ d fuel k, d < fuel → isTerm (statuses (k + d)) = true →
      (∀ j, j < d → isTerm (statuses (k + j)) = false) →
      pollLoop isTerm statuses fuel k = (some (statuses (k + d)), d + 1) := by
  intro d
  induction d with
  | zero =>
    intro fuel k hlt hterm _
    match fuel, hlt with
    | m + 1, _ =>
      have hterm' : isTerm (statuses k) = true := by simpa using hterm
      rw [pollLoop_succ, if_pos hterm']
      simp
  | succ d ih =>
    intro fuel k hlt hterm hnon
    match fuel, hlt with
    | m + 1, hlt =>
      have h0 : isTerm (statuses k) = false := by simpa using hnon 0 (by omega)
      have harg : k + 1 + d = k + (d + 1) := by omega
      have hrec := ih m (k + 1) (by omega) (by rw [harg]; exact hterm)
        (fun j hj => by
          have hj' := hnon (j + 1) (by omega)
          have hidx : k + 1 + j = k + (j + 1) := by omega
          rw [hidx]; exact hj')
      rw [pollLoop_succ, if_neg (by simp [h0]), hrec, harg]
      simp

theorem pySplitAux_length :
    ∀ (s acc : List Char),
      (pySplitAux s acc).length
        = countTokens s (!acc.isEmpty) + (if acc.isEmpty then 0 else 1) := by
  intro s
  induction s with
  | nil => intro acc; cases acc <;> simp [pySplitAux, countTokens]
  | cons c rest ih =>
    intro acc
    cases hsp : pyIsSpace c <;> cases acc <;>
        (simp [pySplitAux, countTokens, hsp, ih]; try omega)

/-- Unfolding equation for `pySplitlinesAux` on a cons. -/
theorem pySplitlinesAux_cons (c : Char) (rest acc : List Char) :
    pySplitlinesAux (c :: rest) acc =
      if c == '\r' then
        acc.reverse ::
          pySplitlinesAux (if rest.head? == some '\n' then rest.tail else rest) []
      else if pyIsLineBoundary c then acc.reverse :: pySplitlinesAux rest []
      else pySplitlinesAux rest (c :: acc) := by
  conv_lhs => rw [pySplitlinesAux]

theorem pySplitlinesAux_length :
    ∀ (s acc : List Char), onlyNlBoundaries s = true →
      (pySplitlinesAux s acc).length
        = countNewlines s +
            (if s.isEmpty then (if acc.isEmpty then 0 else 1) else tailLineExtra s) := by
  intro s
  induction s with
  | nil =>
    intro acc _
    cases acc <;> simp [pySplitlinesAux, countNewlines]
  | cons c rest ih =>
    intro acc h
    have hparts := h
    simp only [onlyNlBoundaries, List.all_cons, Bool.and_eq_true] at hparts
    obtain ⟨hc, hrest⟩ := hparts
    have hrest' : onlyNlBoundaries rest = true := hrest
    cases hb : pyIsLineBoundary c
    · have hcr : (c == '\r') = false := by
        cases hcc : c == '\r'
        · rfl
        · exfalso
          have hceq : c = '\r' := by simpa using hcc
          subst hceq
          simp [pyIsLineBoundary] at hb
      have hcn : (c == '\n') = false := by
        cases hcc : c == '\n'
        · rfl
        · exfalso
          have hceq : c = '\n' := by simpa using hcc
          subst hceq
          simp [pyIsLineBoundary] at hb
      cases rest with
      | nil =>
        simp [pySplitlinesAux, hcr, hb, ih, hrest', countNewlines, hcn, tailLineExtra]
      | cons r rs =>
        rw [pySplitlinesAux_cons, if_neg (by simp [hcr]), if_neg (by simp [hb]),
          ih (c :: acc) hrest']
        simp [countNewlines, tailLineExtra, List.getLast?_cons_cons, hcn]
    · have hcn : c = '\n' := by
        simp only [hb, Bool.not_true, Bool.false_or] at hc
        simpa using hc
      subst hcn
      cases rest with
      | nil =>
        simp [pySplitlinesAux, countNewlines, tailLineExtra, pyIsLineBoundary]
      | cons r rs =>
        rw [pySplitlinesAux_cons, if_neg (by decide), if_pos (by decide),
          List.length_cons, ih [] hrest']
        simp [countNewlines, tailLineExtra, List.getLast?_cons_cons]
        omega

theorem word_count_eq_countTokens (content : List Char) :
    word_count content = countTokens content false := by
  have h := pySplitAux_length content []
  simpa [word_count, pySplit] using h

theorem line_count_eq (content : List Char) (h : onlyNlBoundaries content = true) :
    line_count content
      = countNewlines content + (if content.isEmpty then 0 else tailLineExtra content) := by
  have h2 := pySplitlinesAux_length content [] h
  simp only [line_count, pySplitlines, h2, List.isEmpty_nil]
  cases content <;> simp

theorem lstripAt_append_at (u : String) : lstripAt ("@" ++ u) = lstripAt u := by
  have hd : ("@" ++ u).data = '@' :: u.data := by
    simp [String.data_append]
  simp [lstripAt, hd, List.dropWhile_cons]

theorem normMain_foldl_length (u : String) :
    ∀ (items : List PyRec) (acc : List Tweet × Option Profile),
      ((items.foldl (normStepMain u) acc).1).length
        = acc.1.length
          + (items.filter (fun it =>
              !isProfileItem it
                && (truthy (text_val it) || truthy (url_val it)))).length := by
  intro items
  induction items with
  | nil => intro acc; simp
  | cons it rest ih =>
    intro acc
    cases hp : isProfileItem it
    · cases hc : truthy (text_val it) || truthy (url_val it)
      · simp [List.foldl_cons, List.filter_cons, normStepMain, hp, hc, ih]
      · simp [List.foldl_cons, List.filter_cons, normStepMain, hp, hc, ih]
        omega
    · simp [List.foldl_cons, List.filter_cons, normStepMain, hp, ih]

theorem normSimple_foldl_length (u : String) :
    ∀ (items : List PyRec) (acc : List Tweet × Option Profile),
      ((items.foldl (normStepSimple u) acc).1).length
        = acc.1.length
          + (items.filter (fun it => pyGet it "type" == PyVal.str "tweet")).length := by
  intro items
  induction items with
  | nil => intro acc; simp
  | cons it rest ih =>
    intro acc
    cases ht : pyGet it "type" == PyVal.str "tweet"
    · cases hp : isProfileItem it
      · simp [List.foldl_cons, List.filter_cons, normStepSimple, ht, hp, ih]
      · simp [List.foldl_cons, List.filter_cons, normStepSimple, ht, hp, ih]
    · simp [List.foldl_cons, List.filter_cons, normStepSimple, ht, ih]
      omega

theorem afterPollSimple_error_of_nonterminal (s : String)
    (h : terminalSimple s = false) :
    afterPollSimple (some s) = Except.error ("Actor run failed with status: " ++ s) := by
  have hne : s ≠ "SUCCEEDED" := by
    intro heq
    subst heq
    simp [terminalSimple] at h
  simp [afterPollSimple, hne]

theorem afterPollDebug_error_of_nonterminal (s : String)
    (h : terminalDebug s = false) :
    afterPollDebug (some s) = Except.error ("Actor run finished with status: " ++ s) := by
  have hne : s ≠ "SUCCEEDED" := by
    intro heq
    subst heq
    simp [terminalDebug] at h
  simp [afterPollDebug, hne]

/-! ## The claims -/

/-- C1: in both polling variants the loop never issues more polls than the
max-wait budget allows (`max_wait / 5`), and if every polled status is
non-terminal — e.g. always "RUNNING" — the run fails after the loop with an
error (raised and rendered as an error envelope by the top-level handler),
never reaching the report-writing code, so no silent empty report is
produced. -/
theorem c1_poll_timeout :
    (∀ t : Nat → String,
        (runPollSimple t).2 ≤ maxWaitSimple / pollInterval
          ∧ (runPollDebug t).2 ≤ maxWaitDebug / pollInterval)
      ∧ (∀ s : Nat → String, (∀ k, terminalSimple (s k) = false) →
          ∃ m, afterPollSimple (runPollSimple s).1 = Except.error m)
      ∧ (∀ s : Nat → String, (∀ k, terminalDebug (s k) = false) →
          ∃ m, afterPollDebug (runPollDebug s).1 = Except.error m) := by
  refine ⟨fun t => ⟨pollLoop_snd_le _ _ _ _, pollLoop_snd_le _ _ _ _⟩, ?_, ?_⟩
  · intro s hs
    have hfuel : maxWaitSimple / pollInterval = 11 + 1 := rfl
    have h := pollLoop_all_nonterminal terminalSimple s hs 11 0
    have hrun : runPollSimple s = (some (s 11), 12) := by
      rw [runPollSimple, hfuel, h]
    rw [hrun]
    exact ⟨_, afterPollSimple_error_of_nonterminal (s 11) (hs 11)⟩
  · intro s hs
    have hfuel : maxWaitDebug / pollInterval = 23 + 1 := rfl
    have h := pollLoop_all_nonterminal terminalDebug s hs 23 0
    have hrun : runPollDebug s = (some (s 23), 24) := by
      rw [runPollDebug, hfuel, h]
    rw [hrun]
    exact ⟨_, afterPollDebug_error_of_nonterminal (s 23) (hs 23)⟩

/-- Witness for C1 at the always-"RUNNING" status stream. -/
theorem c1_poll_timeout_witness :
    (∃ m, afterPollSimple (runPollSimple fun _ => "RUNNING").1 = Except.error m)
      ∧ (∃ m, afterPollDebug (runPollDebug fun _ => "RUNNING").1 = Except.error m) :=
  ⟨c1_poll_timeout.2.1 (fun _ => "RUNNING") (fun _ => rfl),
   c1_poll_timeout.2.2 (fun _ => "RUNNING") (fun _ => rfl)⟩

/-- C2 (counterexample): "TIMED-OUT" is in the claim's terminal set
{succeeded, failed, aborted, timed-out}, yet the simple variant's poll loop
(whose list on line 80 omits 'TIMED-OUT') does not exit on observing it: it
keeps polling through the whole budget, 12 polls instead of 1. -/
theorem c2_timed_out_counterexample :
    terminalDebug "TIMED-OUT" = true
      ∧ (runPollSimple fun _ => "TIMED-OUT").2 = 12
      ∧ (runPollSimple fun _ => "TIMED-OUT").2 ≠ 1 := by
  decide

/-- C2 (amended): each variant has its own terminal set — the debug variant
{SUCCEEDED, FAILED, ABORTED, TIMED-OUT}, the simple variant only
{SUCCEEDED, FAILED, ABORTED} — and in each variant the poll loop breaks the
first time a status in its own terminal set is returned (exiting with one
poll at that status), while any earlier status outside that set keeps the
loop polling. -/
theorem c2_terminal_exit_amended :
    (∀ (s : Nat → String) (d : Nat), d < maxWaitSimple / pollInterval →
        terminalSimple (s d) = true →
        (∀ j, j < d → terminalSimple (s j) = false) →
        runPollSimple s = (some (s d), d + 1))
      ∧ (∀ (s : Nat → String) (d : Nat), d < maxWaitDebug / pollInterval →
          terminalDebug (s d) = true →
          (∀ j, j < d → terminalDebug (s j) = false) →
          runPollDebug s = (some (s d), d + 1)) := by
  constructor
  · intro s d hd ht hn
    have h := pollLoop_first_terminal terminalSimple s d
      (maxWaitSimple / pollInterval) 0 hd (by simpa using ht)
      (fun j hj => by simpa using hn j hj)
    simpa [runPollSimple] using h
  · intro s d hd ht hn
    have h := pollLoop_first_terminal terminalDebug s d
      (maxWaitDebug / pollInterval) 0 hd (by simpa using ht)
      (fun j hj => by simpa using hn j hj)
    simpa [runPollDebug] using h

/-- Witness for C2 (amended) at a first-poll terminal status. -/
theorem c2_terminal_exit_witness :
    runPollSimple (fun _ => "FAILED") = (some "FAILED", 1)
      ∧ runPollDebug (fun _ => "TIMED-OUT") = (some "TIMED-OUT", 1) :=
  ⟨c2_terminal_exit_amended.1 (fun _ => "FAILED") 0 (by decide) rfl
      (fun _ hj => absurd hj (by omega)),
   c2_terminal_exit_amended.2 (fun _ => "TIMED-OUT") 0 (by decide) rfl
      (fun _ hj => absurd hj (by omega))⟩

/-- C3 (counterexample): on the record {'text': '', 'full_text': 'hi'} the
code resolves text to 'hi' — a present but falsy alias ('text' bound to the
empty string) is skipped — so "the first present alias wins" is false for
the `or`-chained text field. -/
theorem c3_first_present_counterexample :
    ¬ (text_val [("text", PyVal.str ""), ("full_text", PyVal.str "hi")]
        = firstPresent [("text", PyVal.str ""), ("full_text", PyVal.str "hi")]
            ["text", "full_text", "content"] (PyVal.str "")) := by
  decide

/-- C3 (amended): the count fields follow the claimed first-PRESENT alias
priority (retweet_count: retweetCount then retweet_count, default 0;
like_count: likeCount then favorite_count then like_count, default 0;
reply_count: replyCount then reply_count, default 0), but the `or`-chained
fields follow first-TRUTHY alias priority: text from 'text' then
'full_text', falling back to the present-or-'' value of 'content';
created_at from 'createdAt' then 'created_at', falling back to the value of
'date'; url from 'url' then 'tweetUrl', default ''; id from 'id', falling
back to the value of 'id_str'. -/
theorem c3_alias_resolution_amended (item : PyRec) :
    text_val item
        = firstTruthyOr item ["text", "full_text"] (pyGetD item "content" (PyVal.str ""))
      ∧ created_val item
          = firstTruthyOr item ["createdAt", "created_at"] (pyGet item "date")
      ∧ retweets_val item
          = firstPresent item ["retweetCount", "retweet_count"] (PyVal.int 0)
      ∧ likes_val item
          = firstPresent item ["likeCount", "favorite_count", "like_count"] (PyVal.int 0)
      ∧ replies_val item
          = firstPresent item ["replyCount", "reply_count"] (PyVal.int 0)
      ∧ url_val item = firstTruthyOr item ["url", "tweetUrl"] (PyVal.str "")
      ∧ tid item = firstTruthyOr item ["id"] (pyGet item "id_str") := by
  refine ⟨?_, ?_, ?_, ?_, ?_, ?_, ?_⟩ <;>
    simp [text_val, created_val, retweets_val, likes_val, replies_val, url_val,
      tid, firstTruthyOr, firstPresent, pyOr, pyGet, pyGetD]

/-- C4 (counterexample): the record {'type': 'tweet'} has no profile marker
and none of the recognized text/url alias keys, yet the simple variant does
not drop it — its loop keys on type == 'tweet' and appends it, so the
content-item count is 1, not 0. -/
theorem c4_contentless_record_counterexample :
    isProfileItem [("type", PyVal.str "tweet")] = false
      ∧ (["text", "full_text", "content", "url", "tweetUrl"].all
          (fun k => !pyHasKey [("type", PyVal.str "tweet")] k)) = true
      ∧ (normalizeSimple "user" [[("type", PyVal.str "tweet")]]).1.length = 1 := by
  decide

/-- C4 (amended): in twitter_scraper.py a record with no profile marker and
no truthy text/url under the recognized aliases is dropped silently, and the
content-item count is exactly the number of non-profile records with truthy
text or url; in the simple variant (and the debug variant, which shares the
loop shape) inclusion is decided solely by type == 'tweet', so a
content-less 'tweet'-typed record is still counted. -/
theorem c4_drop_counts_amended (username : String) (items : List PyRec) :
    (normalizeMain username items).1.length
        = (items.filter (fun it =>
            !isProfileItem it
              && (truthy (text_val it) || truthy (url_val it)))).length
      ∧ (normalizeSimple username items).1.length
          = (items.filter (fun it => pyGet it "type" == PyVal.str "tweet")).length := by
  constructor
  · simpa [normalizeMain] using normMain_foldl_length username items ([], Option.none)
  · simpa [normalizeSimple] using normSimple_foldl_length username items ([], Option.none)

/-- C5: when the job ends SUCCEEDED but the terminal status payload carries
no truthy result-set (dataset) identifier, the retrieve step fails with an
error in both variants — twitter_scraper.py falls into the empty-items check
and prints an error envelope, the debug variant raises "No dataset id
returned" — and never yields a success over an empty result set. -/
theorem c5_missing_dataset_id :
    (∀ (run : PyRec) (fetch : PyVal → List PyRec) (username : String),
        truthy (pyGet run "defaultDatasetId") = false →
        emptyItemsCheck username (itemsForRun run fetch)
          = Except.error (Envelope.error
              ("No data found for username @" ++ username ++
                ". Check if the username exists and is public.")))
      ∧ (∀ (st : PyRec) (fetch : PyVal → List PyRec),
          truthy (pyGet st "defaultDatasetId") = false →
          debugRetrieve "SUCCEEDED" st fetch
            = Except.error "No dataset id returned") := by
  constructor
  · intro run fetch username h
    simp [itemsForRun, emptyItemsCheck, h]
  · intro st fetch h
    simp [debugRetrieve, h]

/-- Witness for C5 at a status payload with no dataset id at all. -/
theorem c5_missing_dataset_id_witness :
    emptyItemsCheck "user" (itemsForRun [] (fun _ => [[("id", PyVal.int 1)]]))
        = Except.error (Envelope.error
            ("No data found for username @" ++ "user" ++
              ". Check if the username exists and is public."))
      ∧ debugRetrieve "SUCCEEDED" [] (fun _ => [[("id", PyVal.int 1)]])
          = Except.error "No dataset id returned" :=
  ⟨c5_missing_dataset_id.1 [] (fun _ => [[("id", PyVal.int 1)]]) "user" rfl,
   c5_missing_dataset_id.2 [] (fun _ => [[("id", PyVal.int 1)]]) rfl⟩

/-- C6 (counterexample): for the one-character content "a" (readable, no
trailing newline) the reported line_count — len(content.splitlines()) — is
1 while the number of newlines in the content is 0, so the two do not
match. -/
theorem c6_line_count_counterexample :
    ¬ (line_count ['a'] = countNewlines ['a']) := by
  simp [line_count, pySplitlines, pySplitlinesAux, countNewlines, pyIsLineBoundary]

/-- C6 (amended): word_count is indeed the number of maximal
whitespace-separated tokens, but line_count is len(content.splitlines()),
which (for content whose only line-boundary character is the newline)
equals the newline count plus one extra when the content is nonempty and
does not end in a newline — it equals the plain newline count only for
empty or newline-terminated content. -/
theorem c6_counts_amended (content : List Char)
    (h : onlyNlBoundaries content = true) :
    word_count content = countTokens content false
      ∧ line_count content
          = countNewlines content
            + (if content.isEmpty then 0 else tailLineExtra content) :=
  ⟨word_count_eq_countTokens content, line_count_eq content h⟩

/-- Witness for C6 (amended) on the content "a b\nc". -/
theorem c6_counts_amended_witness :
    word_count ['a', ' ', 'b', '\n', 'c'] = countTokens ['a', ' ', 'b', '\n', 'c'] false
      ∧ line_count ['a', ' ', 'b', '\n', 'c']
          = countNewlines ['a', ' ', 'b', '\n', 'c']
            + (if List.isEmpty ['a', ' ', 'b', '\n', 'c'] then 0
                else tailLineExtra ['a', ' ', 'b', '\n', 'c']) :=
  c6_counts_amended ['a', ' ', 'b', '\n', 'c'] (by decide)

/-- C7 (counterexample): the selector 'apidojo/tweet-scraper' satisfies the
claim's condition for the search-terms payload shape, yet the debug
variant's `run_actor` (whose test on line 34 checks only the
'apidojo~tweet-scraper' prefix) builds the handles payload for it. -/
theorem c7_debug_selector_counterexample :
    c7ClaimCond "apidojo/tweet-scraper" = true
      ∧ (debugRunInput "apidojo/tweet-scraper" "user" 5 []).isSearch = false := by
  decide

/-- C7 (amended): the payload shape is selected only by the actor-selector
configuration, never by content, but the condition differs per variant:
twitter_scraper.py builds the search-terms shape exactly when the stripped
APIFY_ACTOR_ID starts with 'apidojo~tweet-scraper' or
'apidojo/tweet-scraper' or is empty; the simple variant always builds the
handles shape; the debug variant builds the search-terms shape exactly when
the selector starts with 'apidojo~tweet-scraper'. -/
theorem c7_payload_selector_amended (env : MainEnv) (u a : String) (n : Int)
    (pgs : List String) :
    (buildRunInputMain env u n).isSearch
        = c7ClaimCond (pyStrip (env.apifyActorId.getD ""))
      ∧ (simpleRunInput u n).isSearch = false
      ∧ (debugRunInput a u n pgs).isSearch
          = strStartsWith a "apidojo~tweet-scraper" := by
  refine ⟨?_, rfl, ?_⟩
  · simp only [buildRunInputMain, c7ClaimCond]
    split
    · simp_all [RunInput.isSearch]
    · simp_all [RunInput.isSearch]
  · simp only [debugRunInput]
    split
    · simp_all [RunInput.isSearch]
    · simp_all [RunInput.isSearch]

/-- C8: in every variant the written report's metadata field tweets_found
is by construction the length of its tweets list; in the concrete scenario
of five content records and one profile record with tweets_count=5
requested, the report has tweets_found = 5 and a non-null profile. -/
theorem c8_tweets_found_invariant :
    (∀ (sa u : String) (req : Int) (items : List PyRec),
        (buildReportMain sa u req items).metadata.tweets_found
            = (buildReportMain sa u req items).tweets.length
          ∧ (buildReportSimple sa u req items).metadata.tweets_found
              = (buildReportSimple sa u req items).tweets.length
          ∧ (buildReportDebug sa u req items).metadata.tweets_found
              = (buildReportDebug sa u req items).tweets.length)
      ∧ ((buildReportMain "t0" "user" 5 c8ScenarioItems).metadata.tweets_found = 5
          ∧ (buildReportMain "t0" "user" 5 c8ScenarioItems).profile ≠ Option.none
          ∧ (buildReportDebug "t0" "user" 5 c8ScenarioItems).metadata.tweets_found = 5
          ∧ (buildReportDebug "t0" "user" 5 c8ScenarioItems).profile ≠ Option.none) := by
  refine ⟨fun sa u req items => ⟨rfl, rfl, rfl⟩, ?_, ?_, ?_, ?_⟩ <;> decide

/-- C9: in twitter_scraper.py, whenever a username is resolved (the only
way past the first check), the run stops at the credential check with the
envelope {"status": "error", "message": "APIFY_API_TOKEN environment
variable not set"}: line 30 binds the token to the empty string literal, so
the check fires for every environment — including one whose
APIFY_API_TOKEN is set, which is never consulted. -/
theorem c9_token_always_missing (argUsername : Option String) (env : MainEnv)
    (h : optStrTruthy (resolveUsername argUsername env) = true) :
    mainEarly argUsername env
      = Except.error
          (Envelope.error "APIFY_API_TOKEN environment variable not set") := by
  simp [mainEarly, h]

/-- Witness for C9: a provided username and an environment in which
APIFY_API_TOKEN is set still end in the missing-token envelope. -/
theorem c9_token_always_missing_witness :
    mainEarly (some "alice") c9SampleEnv
      = Except.error
          (Envelope.error "APIFY_API_TOKEN environment variable not set") :=
  c9_token_always_missing (some "alice") c9SampleEnv (by decide)

/-- C10 (counterexample): the debug variant derives the report filename
from the raw argument (line 175 uses args.username), so '@user' and 'user'
give different filenames. -/
theorem c10_debug_filename_counterexample :
    debugJsonFilename "@user" "20240101_000000"
      ≠ debugJsonFilename "user" "20240101_000000" := by
  decide

/-- C10 (amended): all three variants strip every leading '@' before
building the payload, so the request payload is invariant under prepending
'@' to the username; the report filename is derived from the cleaned
username — hence likewise invariant — in the main and simple variants, but
the debug variant's filename uses the raw argument and is not invariant. -/
theorem c10_at_invariance_amended (u ts a : String) (env : MainEnv) (n : Int)
    (pgs : List String) :
    mainRunInput env ("@" ++ u) n = mainRunInput env u n
      ∧ simpleRunInput ("@" ++ u) n = simpleRunInput u n
      ∧ debugRunInput a ("@" ++ u) n pgs = debugRunInput a u n pgs
      ∧ mainJsonFilename ("@" ++ u) ts = mainJsonFilename u ts
      ∧ simpleJsonFilename ("@" ++ u) ts = simpleJsonFilename u ts := by
  refine ⟨?_, ?_, ?_, ?_, ?_⟩ <;>
    simp [mainRunInput, simpleRunInput, debugRunInput, mainJsonFilename,
      simpleJsonFilename, lstripAt_append_at]
